import Mathlib

/-!
# Verification of `backup.ts` (change-aware directory backup)

Shallow embedding of `src/nodejs-gmp-template-module-2-standard-library/src/backup.ts`.

The program has four exported operations:
* `calculateDirectoryChecksum` — SHA-256 hex digest of a UTF-8 string;
* `getLastBackupHash` — scan the backup log for the last `HASH:`-bearing line;
* `createArchive` — run `tar`, compute a content checksum, append a log entry;
* `runBackup` — the orchestrator (skip decision, mkdir, archive, error catch).

Machine integers are modelled as `Nat` with explicit `% 2^32`; effects (file
system, clock, child process) are modelled as an explicit environment of
operation outcomes (`Env`) plus an explicit file-system state (`FS`).
-/

namespace Backup

/-! ## SHA-256 (Node `crypto.createHash('sha256')`), over byte lists -/

/-- 2^32, the word modulus of SHA-256. -/
def M32 : Nat := 4294967296

/-- Addition modulo 2^32. -/
def add32 (a b : Nat) : Nat := (a + b) % M32

/-- Bitwise complement within a 32-bit word (input assumed < 2^32). -/
def not32 (a : Nat) : Nat := Nat.xor a 4294967295

/-- Right rotation of a 32-bit word by `n` bits. -/
def rotr32 (n a : Nat) : Nat :=
  (Nat.shiftRight a n ||| Nat.shiftLeft a (32 - n)) % M32

/-- Logical right shift of a 32-bit word. -/
def shr32 (n a : Nat) : Nat := Nat.shiftRight a n

def ch32 (x y z : Nat) : Nat := Nat.xor (Nat.land x y) (Nat.land (not32 x) z)

def maj32 (x y z : Nat) : Nat :=
  Nat.xor (Nat.xor (Nat.land x y) (Nat.land x z)) (Nat.land y z)

def bigSigma0 (x : Nat) : Nat :=
  Nat.xor (Nat.xor (rotr32 2 x) (rotr32 13 x)) (rotr32 22 x)

def bigSigma1 (x : Nat) : Nat :=
  Nat.xor (Nat.xor (rotr32 6 x) (rotr32 11 x)) (rotr32 25 x)

def smallSigma0 (x : Nat) : Nat :=
  Nat.xor (Nat.xor (rotr32 7 x) (rotr32 18 x)) (shr32 3 x)

def smallSigma1 (x : Nat) : Nat :=
  Nat.xor (Nat.xor (rotr32 17 x) (rotr32 19 x)) (shr32 10 x)

/-- The 64 SHA-256 round constants. -/
def kConsts : List Nat :=
  [1116352408, 1899447441, 3049323471, 3921009573, 961987163, 1508970993,
   2453635748, 2870763221, 3624381080, 310598401, 607225278, 1426881987,
   1925078388, 2162078206, 2614888103, 3248222580, 3835390401, 4022224774,
   264347078, 604807628, 770255983, 1249150122, 1555081692, 1996064986,
   2554220882, 2821834349, 2952996808, 3210313671, 3336571891, 3584528711,
   113926993, 338241895, 666307205, 773529912, 1294757372, 1396182291,
   1695183700, 1986661051, 2177026350, 2456956037, 2730485921, 2820302411,
   3259730800, 3345764771, 3516065817, 3600352804, 4094571909, 275423344,
   430227734, 506948616, 659060556, 883997877, 958139571, 1322822218,
   1537002063, 1747873779, 1955562222, 2024104815, 2227730452, 2361852424,
   2428436474, 2756734187, 3204031479, 3329325298]

/-- The SHA-256 initial hash value. -/
def hInit : List Nat :=
  [1779033703, 3144134277, 1013904242, 2773480762,
   1359893119, 2600822924, 528734635, 1541459225]

/-- Big-endian 8-byte encoding of a natural number (the bit-length field). -/
def be64 (n : Nat) : List Nat :=
  (List.range 8).map (fun i => n / (256 ^ (7 - i)) % 256)

/-- SHA-256 padding: append `0x80`, zeros, and the 64-bit big-endian
bit length, so the total length is a multiple of 64 bytes. -/
def padMessage (msg : List Nat) : List Nat :=
  let L := msg.length
  let K := (64 - (L + 9) % 64) % 64
  msg ++ [128] ++ List.replicate K 0 ++ be64 (8 * L)

/-- Split a byte list into 64-byte blocks (structural recursion on a fuel
argument so that the kernel can evaluate it; `fuel = l.length` suffices since
every step strictly shortens the list). -/
def toBlocksFuel : Nat → List Nat → List (List Nat)
  | 0, _ => []
  | _, [] => []
  | fuel + 1, b :: l => ((b :: l).take 64) :: toBlocksFuel fuel ((b :: l).drop 64)

/-- Split a byte list into 64-byte blocks. -/
def toBlocks (l : List Nat) : List (List Nat) := toBlocksFuel l.length l

/-- The 16 initial 32-bit message-schedule words of a 64-byte block
(big-endian). -/
def toWords (block : List Nat) : List Nat :=
  (List.range 16).map (fun i =>
    block.getD (4 * i) 0 * 16777216 + block.getD (4 * i + 1) 0 * 65536 +
    block.getD (4 * i + 2) 0 * 256 + block.getD (4 * i + 3) 0)

/-- Extend the message schedule by `k` further words. -/
def extendSchedule : List Nat → Nat → List Nat
  | ws, 0 => ws
  | ws, k + 1 =>
    let i := ws.length
    let w := add32 (add32 (smallSigma1 (ws.getD (i - 2) 0)) (ws.getD (i - 7) 0))
      (add32 (smallSigma0 (ws.getD (i - 15) 0)) (ws.getD (i - 16) 0))
    extendSchedule (ws ++ [w]) k

/-- Working state of the SHA-256 compression function. -/
structure Work where
  a : Nat
  b : Nat
  c : Nat
  d : Nat
  e : Nat
  f : Nat
  g : Nat
  h : Nat

/-- One round of the SHA-256 compression function. -/
def round (wt kt : Nat) (s : Work) : Work :=
  let t1 := add32 (add32 (add32 s.h (bigSigma1 s.e)) (add32 (ch32 s.e s.f s.g) kt)) wt
  let t2 := add32 (bigSigma0 s.a) (maj32 s.a s.b s.c)
  ⟨add32 t1 t2, s.a, s.b, s.c, add32 s.d t1, s.e, s.f, s.g⟩

/-- Compress one 64-byte block into the running hash value. -/
def compressBlock (hs : List Nat) (block : List Nat) : List Nat :=
  let ws := extendSchedule (toWords block) 48
  let s0 : Work := ⟨hs.getD 0 0, hs.getD 1 0, hs.getD 2 0, hs.getD 3 0,
    hs.getD 4 0, hs.getD 5 0, hs.getD 6 0, hs.getD 7 0⟩
  let sF := (List.range 64).foldl (fun s t => round (ws.getD t 0) (kConsts.getD t 0) s) s0
  [add32 (hs.getD 0 0) sF.a, add32 (hs.getD 1 0) sF.b, add32 (hs.getD 2 0) sF.c,
   add32 (hs.getD 3 0) sF.d, add32 (hs.getD 4 0) sF.e, add32 (hs.getD 5 0) sF.f,
   add32 (hs.getD 6 0) sF.g, add32 (hs.getD 7 0) sF.h]

/-- SHA-256 digest of a byte list, as eight 32-bit words. -/
def sha256Words (msg : List Nat) : List Nat :=
  (toBlocks (padMessage msg)).foldl compressBlock hInit

/-- One lowercase hexadecimal digit. -/
def hexChar (n : Nat) : Char :=
  if n < 10 then Char.ofNat (48 + n) else Char.ofNat (87 + n)

/-- A 32-bit word as 8 lowercase hex characters (big-endian). -/
def wordToHex (w : Nat) : List Char :=
  (List.range 8).map (fun i => hexChar (w / (16 ^ (7 - i)) % 16))

/-- SHA-256 digest of a byte list, as a 64-character lowercase hex string. -/
def sha256Hex (msg : List Nat) : String :=
  String.mk ((sha256Words msg).flatMap wordToHex)

/-- UTF-8 encoding of one character (Node's `'utf8'` encoding). -/
def charUtf8 (c : Char) : List Nat :=
  let n := c.toNat
  if n < 128 then [n]
  else if n < 2048 then [192 + n / 64, 128 + n % 64]
  else if n < 65536 then [224 + n / 4096, 128 + n / 64 % 64, 128 + n % 64]
  else [240 + n / 262144, 128 + n / 4096 % 64, 128 + n / 64 % 64, 128 + n % 64]

/-- UTF-8 byte sequence of a string. -/
def utf8Bytes (s : String) : List Nat := s.data.flatMap charUtf8

/--
`calculateDirectoryChecksum` from `backup.ts`:
`crypto.createHash('sha256').update(str, 'utf8').digest('hex')` —
the SHA-256 hex digest of the UTF-8 bytes of `str`.  (The `async` wrapper is
irrelevant: the body never rejects.)
-/
def calculateDirectoryChecksum (str : String) : String :=
  sha256Hex (utf8Bytes str)

set_option maxRecDepth 100000

/-- FIPS 180-4 test vector: SHA-256("abc"). -/
theorem sha256_abc :
    calculateDirectoryChecksum "abc" =
      "ba7816bf8f01cfea414140de5dae2223b00361a396177a9cb410ff61f20015ad" := by
  decide

/-- Second test vector: SHA-256 of the empty string (exercises the padding
of a length-0 message). -/
theorem sha256_empty :
    calculateDirectoryChecksum "" =
      "e3b0c44298fc1c149afbf4c8996fb92427ae41e4649b934ca495991b7852b855" := by
  decide

/-! ## JavaScript string operations

The JS string methods the program uses (`split`, `trim`, `includes`,
`replace` with a character class, `join('')`) are modelled over `List Char`
by structural recursion, so that every definition evaluates inside the
kernel.  JS strings are sequences of code points here (the program only
feeds them well-formed text).
-/

/-- Does `s` start with `pre` (on character lists)? -/
def startsWithL : List Char → List Char → Bool
  | _, [] => true
  | [], _ :: _ => false
  | c :: cs, p :: ps => c == p && startsWithL cs ps

/-- Worker for `jsSplit`: JS `String.prototype.split` with a non-empty string
separator.  `acc` is the current piece (reversed); the fuel argument makes
the recursion structural; `fuel = s.length` always suffices because every
step consumes at least one character. -/
def jsSplitGo (sep : List Char) : Nat → List Char → List Char → List (List Char)
  | _, acc, [] => [acc.reverse]
  | 0, acc, s => [acc.reverse ++ s]
  | fuel + 1, acc, c :: rest =>
    if sep ≠ [] && startsWithL (c :: rest) sep then
      acc.reverse :: jsSplitGo sep fuel [] ((c :: rest).drop sep.length)
    else
      jsSplitGo sep fuel (c :: acc) rest

/-- JS `s.split(sep)` for a non-empty string separator. -/
def jsSplit (s sep : String) : List String :=
  (jsSplitGo sep.data s.data.length [] s.data).map (fun cs => String.mk cs)

/-- JS whitespace as far as the log format can contain it (JS `trim` also
strips some Unicode spaces, which never occur in these ASCII log lines). -/
def jsIsWhitespace (c : Char) : Bool :=
  c == ' ' || c == '\t' || c == '\n' || c == '\r' || c == '\x0b' || c == '\x0c'

/-- JS `s.trim()`. -/
def jsTrim (s : String) : String :=
  String.mk (((s.data.dropWhile jsIsWhitespace).reverse.dropWhile jsIsWhitespace).reverse)

/-- JS `s.includes(sub)` for a non-empty `sub`: true iff `sub` occurs in `s`
(equivalently, splitting on `sub` yields at least two pieces). -/
def jsIncludes (s sub : String) : Bool := decide (2 ≤ (jsSplit s sub).length)

/-! ## The effect model

All the fallible external operations the program performs are oracles
collected in `Env`; the persistent state it mutates (the log file
`backup_log.txt` and the set of created archives) is `FS`.  An error value is
the JS `error.message` string.
-/

/-- Error messages (`error.message` of a rejected promise). -/
abbrev Err := String

/-- The file-system state the program mutates: the single log file
(`backup_log.txt`), and the archive files created in the destination. -/
structure FS where
  /-- Whether `backup_log.txt` exists (`fs.appendFile` creates it). -/
  logExists : Bool
  /-- The log file's content, as the list of appended entries (each entry is
  a full line including its trailing newline). -/
  log : List String
  /-- Paths of archive files created so far. -/
  archives : List String
deriving DecidableEq, Repr

/-- Outcomes of the external operations of one backup run. -/
structure Env where
  /-- `new Date().toISOString()` at this run. -/
  now : String
  /-- `fs.readdir(sourceDir)`: the entry-name list, or a rejection. -/
  dirEntries : Except Err (List String)
  /-- `fs.readFile(p, 'utf8')` for source files, keyed by joined path. -/
  fileContent : String → Except Err String
  /-- The `tar -czf …` child process: success or failure message. -/
  tarResult : Except Err Unit
  /-- `fs.mkdir(destinationDir, { recursive: true })`. -/
  mkdirResult : Except Err Unit
  /-- An I/O failure when reading an *existing* log file (`none` = read ok). -/
  readLogErr : Option Err
  /-- Outcome of `fs.appendFile(logFilePath, entry)`, per entry. -/
  appendErr : String → Option Err

/-- `path.join(a, b)` for the plain relative segments this program uses. -/
def pathJoin (a b : String) : String := a ++ "/" ++ b

/-- `s.replace(/\\/g, '/')` (a per-character replacement). -/
def normalizeSlashes (s : String) : String :=
  String.mk (s.data.map (fun c => if c = '\\' then '/' else c))

/-- `timestamp.replace(/[:.]/g, '-')`: the filename-safe timestamp. -/
def sanitizeTimestamp (s : String) : String :=
  String.mk (s.data.map (fun c => if c = ':' ∨ c = '.' then '-' else c))

/-- `fs.readFile(logPath, 'utf-8')`: rejects when the file does not exist or
on an I/O error, otherwise returns the file content. -/
def readLogFile (env : Env) (fs : FS) : Except Err String :=
  if fs.logExists then
    match env.readLogErr with
    | some e => .error e
    | none => .ok (String.join fs.log)
  else .error "ENOENT: no such file or directory"

/-- `fs.appendFile(logFilePath, entry)`: creates the file when missing and
appends the entry after all existing content, or rejects. -/
def appendLogFile (env : Env) (fs : FS) (entry : String) : Except Err FS :=
  match env.appendErr entry with
  | some e => .error e
  | none => .ok { fs with logExists := true, log := fs.log ++ [entry] }

/-! ## `getLastBackupHash` -/

/--
The log-scanning core of `getLastBackupHash`, applied to a successfully read
log content: trim, split into lines, find the last line containing `HASH:`,
and return the trimmed piece after the first `HASH:`
(`lastHashLine.split('HASH:')[1]?.trim()`).
-/
def getLastBackupHashContent (content : String) : Option String :=
  match ((jsSplit (jsTrim content) "\n").reverse.find?
      (fun line => jsIncludes line "HASH:")) with
  | none => none
  | some lastHashLine => ((jsSplit lastHashLine "HASH:")[1]?).map jsTrim

/--
`getLastBackupHash` from `backup.ts`: read the log file; on any read error
(including a missing file) the `catch` swallows the error and returns `null`
(here `none`); otherwise scan the content for the last `HASH:` line.
-/
def getLastBackupHash (env : Env) (fs : FS) : Option String :=
  match readLogFile env fs with
  | .error _ => none
  | .ok content => getLastBackupHashContent content

/-! ## `createArchive` -/

/-- `Promise.all(files.map(file => fs.readFile(path.join(sourceDir, file),
'utf8')))`: all contents in listing order, or the first rejection. -/
def readAllFiles (env : Env) (sourceDir : String) : List String → Except Err (List String)
  | [] => .ok []
  | f :: rest =>
    match env.fileContent (pathJoin sourceDir f) with
    | .error e => .error e
    | .ok c =>
      match readAllFiles env sourceDir rest with
      | .error e => .error e
      | .ok cs => .ok (c :: cs)

/-- The SUCCESS log entry `createArchive` appends
(note: its leading timestamp is the *sanitized* one used in the filename). -/
def successLogEntry (env : Env) (normalizedBackupFilePath checksum : String) : String :=
  sanitizeTimestamp env.now ++ ": SUCCESS: Backup created at " ++
    normalizedBackupFilePath ++ ", HASH: " ++ checksum ++ "\n"

/-- The FAILED log entry `createArchive` appends in its `catch` block
(this one uses the raw `new Date().toISOString()`). -/
def failedLogEntry (env : Env) (msg : Err) : String :=
  env.now ++ ": FAILED: " ++ msg ++ "\n"

/--
The `try` block of `createArchive`: run `tar` (which on success creates the
archive file at the destination path; the Archiver is the black-box external
collaborator, so a failed `tar` creates nothing), re-read the source
directory, read every file's content, hash the concatenation, and append the
SUCCESS entry.  Returns the file system reached so far together with the
outcome.
-/
def createArchiveTry (env : Env) (sourceDir normalizedBackupFilePath : String)
    (fs : FS) : FS × Except Err Unit :=
  match env.tarResult with
  | .error e => (fs, .error e)
  | .ok _ =>
    let fs1 := { fs with archives := fs.archives ++ [normalizedBackupFilePath] }
    match env.dirEntries with
    | .error e => (fs1, .error e)
    | .ok files =>
      match readAllFiles env sourceDir files with
      | .error e => (fs1, .error e)
      | .ok fileContents =>
        let checksum := calculateDirectoryChecksum (String.join fileContents)
        match appendLogFile env fs1 (successLogEntry env normalizedBackupFilePath checksum) with
        | .error e => (fs1, .error e)
        | .ok fs2 => (fs2, .ok ())

/--
`createArchive` from `backup.ts`: derive the timestamped archive path, run
the `try` block, and in the `catch` append a FAILED entry and re-throw
`Failed to create backup, error = <msg>`.  When the `catch`'s own
`appendFile` rejects, that rejection propagates instead (the `throw` line is
never reached).
-/
def createArchive (env : Env) (sourceDir destinationDir : String) (fs : FS) :
    FS × Except Err Unit :=
  let timestamp := sanitizeTimestamp env.now
  let backupFilename := "backup-" ++ timestamp ++ ".tar.gz"
  let backupFilePath := pathJoin destinationDir backupFilename
  let normalizedBackupFilePath := normalizeSlashes backupFilePath
  match createArchiveTry env sourceDir normalizedBackupFilePath fs with
  | (fs1, .ok _) => (fs1, .ok ())
  | (fs1, .error e) =>
    match appendLogFile env fs1 (failedLogEntry env e) with
    | .error e2 => (fs1, .error e2)
    | .ok fs2 => (fs2, .error ("Failed to create backup, error = " ++ e))

/-! ## `runBackup` -/

/--
The `try` block of `runBackup`: list the source directory, hash the
*entry names* joined with no separator, read the last logged hash, skip when
they are equal (JS `===`; `null === s` is false), otherwise `mkdir -p` the
destination and call `createArchive`.
-/
def runBackupTry (env : Env) (sourceDir destinationDir : String) (fs : FS) :
    FS × Except Err Unit :=
  match env.dirEntries with
  | .error e => (fs, .error e)
  | .ok files =>
    let newChecksum := calculateDirectoryChecksum (String.join files)
    let lastChecksum := getLastBackupHash env fs
    if lastChecksum = some newChecksum then (fs, .ok ())
    else
      match env.mkdirResult with
      | .error e => (fs, .error e)
      | .ok _ => createArchive env sourceDir destinationDir fs

/-- What one `runBackup` invocation produces: the final file system, the
lines written to `process.stderr`, and the outcome its promise reports to
the caller (resolution or rejection). -/
structure RunResult where
  fs : FS
  stderrLines : List String
  outcome : Except Err Unit
deriving Repr

/--
`runBackup` from `backup.ts`: the `try` block above, with a `catch` that
writes `Error occurred during backup: <msg>` to stderr and resolves normally
(it neither re-throws nor rejects).
-/
def runBackup (env : Env) (sourceDir destinationDir : String) (fs : FS) : RunResult :=
  match runBackupTry env sourceDir destinationDir fs with
  | (fs1, .ok _) => ⟨fs1, [], .ok ()⟩
  | (fs1, .error e) => ⟨fs1, ["Error occurred during backup: " ++ e], .ok ()⟩

/-! ## Helper lemmas on `List.find?` -/

theorem find?_append_of_forall_false {α : Type} (p : α → Bool) (l₁ l₂ : List α)
    (h : ∀ x ∈ l₁, p x = false) : (l₁ ++ l₂).find? p = l₂.find? p := by
  induction l₁ with
  | nil => rfl
  | cons a l ih =>
    have ha : p a = false := h a (by simp)
    simp only [List.cons_append, List.find?]
    rw [ha]
    exact ih (fun x hx => h x (by simp [hx]))

theorem find?_reverse_last {α : Type} (p : α → Bool) (pre post : List α) (l : α)
    (hl : p l = true) (hpost : ∀ x ∈ post, p x = false) :
    ((pre ++ l :: post).reverse).find? p = some l := by
  rw [List.reverse_append, List.reverse_cons, List.append_assoc]
  rw [find?_append_of_forall_false p post.reverse _
    (fun x hx => hpost x (List.mem_reverse.mp hx))]
  simp only [List.singleton_append, List.find?]
  rw [hl]

/-! ## Behaviour of `getLastBackupHash` -/

/-- When the log file exists and reading it succeeds, `getLastBackupHash`
scans the file's content. -/
theorem getLastBackupHash_read_ok (env : Env) (fs : FS)
    (hex : fs.logExists = true) (herr : env.readLogErr = none) :
    getLastBackupHash env fs = getLastBackupHashContent (String.join fs.log) := by
  simp [getLastBackupHash, readLogFile, hex, herr]

/-- Decomposition lemma: when the trimmed log content splits into lines
`pre ++ l :: post` with `l` containing `HASH:` and nothing in `post`
containing it, the scan extracts from `l`. -/
theorem getLastBackupHashContent_of_decomp (content l : String)
    (pre post : List String)
    (hsplit : jsSplit (jsTrim content) "\n" = pre ++ l :: post)
    (hl : jsIncludes l "HASH:" = true)
    (hpost : ∀ x ∈ post, jsIncludes x "HASH:" = false) :
    getLastBackupHashContent content = ((jsSplit l "HASH:")[1]?).map jsTrim := by
  unfold getLastBackupHashContent
  rw [hsplit, find?_reverse_last _ pre post l hl hpost]

/--
**C2.** For every log whose lines contain a `HASH:`-bearing line, with `l`
the matching line closest to the end of the file (every later line fails the
`HASH:` test), `getLastBackupHash` returns the trimmed piece of `l` after
`HASH:`, ignoring all earlier matching lines (which may occur anywhere in
`pre`) and skipping the non-matching lines.
-/
theorem getLastBackupHash_returns_last_hash_line (env : Env) (fs : FS)
    (l raw : String) (pre post : List String)
    (hex : fs.logExists = true) (herr : env.readLogErr = none)
    (hsplit : jsSplit (jsTrim (String.join fs.log)) "\n" = pre ++ l :: post)
    (hl : jsIncludes l "HASH:" = true)
    (hpost : ∀ x ∈ post, jsIncludes x "HASH:" = false)
    (hraw : (jsSplit l "HASH:")[1]? = some raw) :
    getLastBackupHash env fs = some (jsTrim raw) := by
  rw [getLastBackupHash_read_ok env fs hex herr,
    getLastBackupHashContent_of_decomp _ l pre post hsplit hl hpost, hraw]
  rfl

/-- A base environment for concrete instantiations. -/
def baseEnv : Env where
  now := "2026-01-02T03:04:05.678Z"
  dirEntries := .ok []
  fileContent := fun _ => .error "ENOENT: no such file or directory"
  tarResult := .ok ()
  mkdirResult := .ok ()
  readLogErr := none
  appendErr := fun _ => none

/-- A two-success log whose two lines carry different hashes. -/
def twoHashFS : FS :=
  ⟨true, ["t1: SUCCESS: Backup created at x, HASH: aaa\n",
          "t2: SUCCESS: Backup created at y, HASH: bbb\n"], []⟩

/-- Witness for C2: on a log with two `HASH:` lines the hash of the later
line (`bbb`, not `aaa`) is returned. -/
theorem getLastBackupHash_returns_last_hash_line_witness :
    getLastBackupHash baseEnv twoHashFS = some "bbb" := by
  have h := getLastBackupHash_returns_last_hash_line baseEnv twoHashFS
    "t2: SUCCESS: Backup created at y, HASH: bbb" " bbb"
    ["t1: SUCCESS: Backup created at x, HASH: aaa"] [] rfl rfl
    (by decide) (by decide) (by decide) (by decide)
  rw [h]
  decide

/--
**C3.** `getLastBackupHash` is a total function (the code's `catch` turns
every read rejection into `null`), and it returns `none` when the log file
does not exist, when reading it fails with an I/O error, when it is empty,
and when no line contains `HASH:`.
-/
theorem getLastBackupHash_never_raises_defaults_none (env : Env) (fs : FS) :
    (fs.logExists = false → getLastBackupHash env fs = none) ∧
    (∀ e, env.readLogErr = some e → getLastBackupHash env fs = none) ∧
    (String.join fs.log = "" → getLastBackupHash env fs = none) ∧
    ((∀ line ∈ jsSplit (jsTrim (String.join fs.log)) "\n",
        jsIncludes line "HASH:" = false) → getLastBackupHash env fs = none) := by
  refine ⟨?_, ?_, ?_, ?_⟩
  · intro h
    simp [getLastBackupHash, readLogFile, h]
  · intro e h
    cases hb : fs.logExists <;> simp [getLastBackupHash, readLogFile, h, hb]
  · intro h
    cases hb : fs.logExists
    · simp [getLastBackupHash, readLogFile, hb]
    · cases he : env.readLogErr
      · rw [getLastBackupHash_read_ok env fs hb he, h]
        decide
      · simp [getLastBackupHash, readLogFile, hb, he]
  · intro h
    cases hb : fs.logExists
    · simp [getLastBackupHash, readLogFile, hb]
    · cases he : env.readLogErr
      · rw [getLastBackupHash_read_ok env fs hb he]
        unfold getLastBackupHashContent
        rw [List.find?_eq_none.mpr
          (fun x hx => by simp [h x (List.mem_reverse.mp hx)])]
      · simp [getLastBackupHash, readLogFile, hb, he]

/-- Witness for C3: the three degenerate logs all yield `none`. -/
theorem getLastBackupHash_never_raises_defaults_none_witness :
    getLastBackupHash baseEnv ⟨false, [], []⟩ = none ∧
    getLastBackupHash { baseEnv with readLogErr := some "EIO: i/o error" }
      ⟨true, ["x\n"], []⟩ = none ∧
    getLastBackupHash baseEnv ⟨true, [], []⟩ = none ∧
    getLastBackupHash baseEnv ⟨true, ["no hash here\n"], []⟩ = none :=
  ⟨(getLastBackupHash_never_raises_defaults_none baseEnv _).1 rfl,
   (getLastBackupHash_never_raises_defaults_none _ _).2.1 "EIO: i/o error" rfl,
   (getLastBackupHash_never_raises_defaults_none baseEnv _).2.2.1 rfl,
   (getLastBackupHash_never_raises_defaults_none baseEnv _).2.2.2 (by decide)⟩

/--
**C9.** When the last `HASH:`-bearing log line has nothing, or only
whitespace, after `HASH:`, `getLastBackupHash` returns the empty string
(JS `'' ?? null` keeps `''`), which is distinguishable from `none`.
-/
theorem getLastBackupHash_empty_hash_not_none (env : Env) (fs : FS)
    (l w : String) (pre post : List String)
    (hex : fs.logExists = true) (herr : env.readLogErr = none)
    (hsplit : jsSplit (jsTrim (String.join fs.log)) "\n" = pre ++ l :: post)
    (hl : jsIncludes l "HASH:" = true)
    (hpost : ∀ x ∈ post, jsIncludes x "HASH:" = false)
    (hw : (jsSplit l "HASH:")[1]? = some w)
    (hwt : jsTrim w = "") :
    getLastBackupHash env fs = some "" ∧ getLastBackupHash env fs ≠ none := by
  have h : getLastBackupHash env fs = some "" := by
    rw [getLastBackupHash_read_ok env fs hex herr,
      getLastBackupHashContent_of_decomp _ l pre post hsplit hl hpost, hw]
    simp [hwt]
  exact ⟨h, by rw [h]; exact Option.some_ne_none _⟩

/-- Witness for C9: a log whose last line ends right at `HASH:` (with
trailing whitespace) yields `some ""`, not `none`. -/
theorem getLastBackupHash_empty_hash_not_none_witness :
    getLastBackupHash baseEnv ⟨true, ["t2: SUCCESS: Backup created at y, HASH:  \n"], []⟩ =
      some "" ∧
    getLastBackupHash baseEnv ⟨true, ["t2: SUCCESS: Backup created at y, HASH:  \n"], []⟩ ≠
      none :=
  getLastBackupHash_empty_hash_not_none baseEnv _
    "t2: SUCCESS: Backup created at y, HASH:" "" [] [] rfl rfl
    (by decide) (by decide) (by decide) (by decide) (by decide)

/-! ## Behaviour of `createArchive` -/

/-- The destination path `createArchive` derives for the archive file. -/
def archivePath (env : Env) (destinationDir : String) : String :=
  normalizeSlashes (pathJoin destinationDir
    ("backup-" ++ sanitizeTimestamp env.now ++ ".tar.gz"))

/-- The empty initial file system: no log file, no archives. -/
def emptyFS : FS := ⟨false, [], []⟩

/-- Case analysis of `createArchive`: it either succeeds and appends exactly
one SUCCESS entry carrying the checksum of the concatenated file contents,
or fails and appends exactly one FAILED entry, or fails with the log
unchanged — and the last case happens only when the `catch` block's own
`appendFile` rejects. -/
theorem createArchive_log_cases (env : Env) (s d : String) (fs : FS) :
    ((createArchive env s d fs).2 = .ok () ∧ ∃ contents,
      (createArchive env s d fs).1.log =
        fs.log ++ [successLogEntry env (archivePath env d)
          (calculateDirectoryChecksum (String.join contents))]) ∨
    (∃ m, (createArchive env s d fs).1.log = fs.log ++ [failedLogEntry env m] ∧
      (createArchive env s d fs).2 =
        .error ("Failed to create backup, error = " ++ m)) ∨
    (∃ m e, env.appendErr (failedLogEntry env m) = some e ∧
      (createArchive env s d fs).1.log = fs.log ∧
      (createArchive env s d fs).2 = .error e) := by
  unfold createArchive createArchiveTry appendLogFile
  rcases htar : env.tarResult with eT | u
  case error =>
    rcases ha : env.appendErr (failedLogEntry env eT) with _ | e2
    · right; left; exact ⟨eT, by simp [ha], by simp [ha]⟩
    · right; right; exact ⟨eT, e2, ha, by simp [ha], by simp [ha]⟩
  case ok =>
    rcases hdir : env.dirEntries with eD | files
    case error =>
      rcases ha : env.appendErr (failedLogEntry env eD) with _ | e2
      · right; left; exact ⟨eD, by simp [ha], by simp [ha]⟩
      · right; right; exact ⟨eD, e2, ha, by simp [ha], by simp [ha]⟩
    case ok =>
      rcases hread : readAllFiles env s files with eR | contents
      case error =>
        rcases ha : env.appendErr (failedLogEntry env eR) with _ | e2
        · right; left; exact ⟨eR, by simp [hread, ha], by simp [hread, ha]⟩
        · right; right; exact ⟨eR, e2, ha, by simp [hread, ha], by simp [hread, ha]⟩
      case ok =>
        rcases hsa : env.appendErr (successLogEntry env
            (normalizeSlashes (pathJoin d ("backup-" ++ sanitizeTimestamp env.now ++ ".tar.gz")))
            (calculateDirectoryChecksum (String.join contents))) with _ | eA
        · left
          refine ⟨by simp [hread, hsa], contents, by simp [hread, hsa, archivePath]⟩
        · rcases ha : env.appendErr (failedLogEntry env eA) with _ | e2
          · right; left
            exact ⟨eA, by simp [hread, hsa, ha], by simp [hread, hsa, ha]⟩
          · right; right
            exact ⟨eA, e2, ha, by simp [hread, hsa, ha], by simp [hread, hsa, ha]⟩

/--
**C4.** On the success path (tar succeeds, the directory lists as `files`,
their contents read as `contents`, log appends succeed), `createArchive`
appends exactly one SUCCESS entry whose recorded fingerprint is the SHA-256
hex digest of the UTF-8 concatenation of the file contents in enumeration
order, and creates the archive at the derived path.
-/
theorem createArchive_records_content_digest (env : Env) (s d : String) (fs : FS)
    (files contents : List String)
    (htar : env.tarResult = .ok ())
    (hdir : env.dirEntries = .ok files)
    (hread : readAllFiles env s files = .ok contents)
    (happ : ∀ x, env.appendErr x = none) :
    createArchive env s d fs =
      ({ logExists := true,
         log := fs.log ++ [successLogEntry env (archivePath env d)
           (calculateDirectoryChecksum (String.join contents))],
         archives := fs.archives ++ [archivePath env d] }, .ok ()) := by
  simp [createArchive, createArchiveTry, appendLogFile, archivePath,
    htar, hdir, hread, happ]

/-- An environment whose source directory lists `a.txt`, `b.txt` with
contents `foo`, `bar`, and where every external operation succeeds. -/
def fooBarEnv : Env :=
  { baseEnv with
    dirEntries := .ok ["a.txt", "b.txt"],
    fileContent := fun p =>
      if p = "src/a.txt" then .ok "foo"
      else if p = "src/b.txt" then .ok "bar"
      else .error "ENOENT: no such file or directory" }

/-- Validation: the concatenation in enumeration order is `"foobar"` and its
digest is the well-known SHA-256 test value. -/
theorem sha256_foobar :
    calculateDirectoryChecksum (String.join ["foo", "bar"]) =
      calculateDirectoryChecksum "foobar" ∧
    calculateDirectoryChecksum "foobar" =
      "c3ab8ff13720e8ad9047dd39466b3c8974e592c2fa383d4a3960714caef0c4f2" := by
  decide

/-- Witness for C4: for the `["a.txt","b.txt"] ↦ "foo","bar"` directory the
appended entry records exactly the SHA-256 hex digest of `"foobar"`. -/
theorem createArchive_records_content_digest_witness :
    (createArchive fooBarEnv "src" "dest" emptyFS).1.log =
      ["2026-01-02T03-04-05-678Z: SUCCESS: Backup created at dest/backup-2026-01-02T03-04-05-678Z.tar.gz, HASH: c3ab8ff13720e8ad9047dd39466b3c8974e592c2fa383d4a3960714caef0c4f2\n"] := by
  have h := createArchive_records_content_digest fooBarEnv "src" "dest" emptyFS
    ["a.txt", "b.txt"] ["foo", "bar"] rfl rfl rfl (fun x => rfl)
  rw [h]
  decide

/-- An environment where the `tar` invocation fails with `disk full`. -/
def tarFailEnv : Env := { baseEnv with tarResult := .error "disk full" }

/--
**C5.** When the Archiver (the `tar` invocation) fails with message `M` (and
the log remains writable), `createArchive` appends exactly one log entry
`<now>: FAILED: <M>`, creates no archive file at the destination, and
rejects with `Failed to create backup, error = <M>`.
-/
theorem createArchive_tar_failure (env : Env) (s d : String) (fs : FS) (M : Err)
    (htar : env.tarResult = .error M)
    (happ : env.appendErr (failedLogEntry env M) = none) :
    (createArchive env s d fs).1.log = fs.log ++ [failedLogEntry env M] ∧
    (createArchive env s d fs).1.archives = fs.archives ∧
    (createArchive env s d fs).2 =
      .error ("Failed to create backup, error = " ++ M) := by
  simp [createArchive, createArchiveTry, appendLogFile, htar, happ]

/-- Witness for C5: the `disk full` scenario of the spec. -/
theorem createArchive_tar_failure_witness :
    (createArchive tarFailEnv "src" "dest" emptyFS).1.log =
      ["2026-01-02T03:04:05.678Z: FAILED: disk full\n"] ∧
    (createArchive tarFailEnv "src" "dest" emptyFS).1.archives = [] ∧
    (createArchive tarFailEnv "src" "dest" emptyFS).2 =
      .error "Failed to create backup, error = disk full" := by
  have h := createArchive_tar_failure tarFailEnv "src" "dest" emptyFS "disk full"
    rfl rfl
  refine ⟨?_, h.2.1, ?_⟩
  · rw [h.1]; decide
  · rw [h.2.2]; rfl

/-! ## The digest is always 64 lowercase hex characters -/

/-- Lowercase hexadecimal digits. -/
def isHexDigit (c : Char) : Bool := c.isDigit || ('a' ≤ c && c ≤ 'f')

theorem compressBlock_length (hs block : List Nat) :
    (compressBlock hs block).length = 8 := by
  simp [compressBlock]

theorem sha256Words_length (msg : List Nat) : (sha256Words msg).length = 8 := by
  unfold sha256Words
  generalize toBlocks (padMessage msg) = bs
  have key : ∀ (bs : List (List Nat)) (hs : List Nat), hs.length = 8 →
      (bs.foldl compressBlock hs).length = 8 := by
    intro bs
    induction bs with
    | nil => intro hs h; simpa using h
    | cons b bs ih => intro hs h; simpa using ih _ (compressBlock_length hs b)
  exact key bs hInit (by decide)

theorem wordToHex_length (w : Nat) : (wordToHex w).length = 8 := by
  simp [wordToHex]

theorem flatMap_wordToHex_length (ws : List Nat) :
    (ws.flatMap wordToHex).length = 8 * ws.length := by
  induction ws with
  | nil => rfl
  | cons w ws ih =>
    simp only [List.flatMap_cons, List.length_append, List.length_cons, ih,
      wordToHex_length]
    omega

theorem isHexDigit_hexChar : ∀ n, n < 16 → isHexDigit (hexChar n) = true := by
  decide

theorem wordToHex_hex (w : Nat) : ∀ c ∈ wordToHex w, isHexDigit c = true := by
  intro c hc
  simp only [wordToHex, List.mem_map, List.mem_range] at hc
  rcases hc with ⟨i, _, rfl⟩
  exact isHexDigit_hexChar _ (Nat.mod_lt _ (by norm_num))

theorem calculateDirectoryChecksum_length (s : String) :
    (calculateDirectoryChecksum s).length = 64 := by
  show ((sha256Words (utf8Bytes s)).flatMap wordToHex).length = 64
  rw [flatMap_wordToHex_length, sha256Words_length]

theorem calculateDirectoryChecksum_hex (s : String) :
    ∀ c ∈ (calculateDirectoryChecksum s).data, isHexDigit c = true := by
  intro c hc
  rcases List.mem_flatMap.mp hc with ⟨w, _, hcw⟩
  exact wordToHex_hex w c hcw

/-! ## Behaviour of `runBackup` -/

/--
**C8.** `runBackup` never rejects: whatever the outcomes of the underlying
operations (directory read, log read, directory creation, archiving, log
appends — all of them free in `env`), its promise resolves normally; failures
are only reported on the error stream.
-/
theorem runBackup_never_rejects (env : Env) (s d : String) (fs : FS) :
    (runBackup env s d fs).outcome = .ok () := by
  unfold runBackup
  rcases h : runBackupTry env s d fs with ⟨fs1, r⟩
  cases r <;> simp

/-- Case analysis of the log after one `runBackup`: unchanged, extended by
one SUCCESS entry, or extended by one FAILED entry. -/
theorem runBackup_log_cases (env : Env) (s d : String) (fs : FS) :
    (runBackup env s d fs).fs.log = fs.log ∨
    (∃ contents, (runBackup env s d fs).fs.log =
      fs.log ++ [successLogEntry env (archivePath env d)
        (calculateDirectoryChecksum (String.join contents))]) ∨
    (∃ m, (runBackup env s d fs).fs.log = fs.log ++ [failedLogEntry env m]) := by
  rcases hdir : env.dirEntries with e | files
  · left
    simp [runBackup, runBackupTry, hdir]
  · by_cases hskip :
      getLastBackupHash env fs = some (calculateDirectoryChecksum (String.join files))
    · left
      simp [runBackup, runBackupTry, hdir, hskip]
    · rcases hmk : env.mkdirResult with e | u
      · left
        simp [runBackup, runBackupTry, hdir, hskip, hmk]
      · rcases hCA : createArchive env s d fs with ⟨fs1, r⟩
        have hc := createArchive_log_cases env s d fs
        rw [hCA] at hc
        have hrun : (runBackup env s d fs).fs = fs1 := by
          cases r <;> simp [runBackup, runBackupTry, hdir, hskip, hmk, hCA]
        rw [hrun]
        rcases hc with ⟨hok, contents, hlog⟩ | ⟨m, hlog, herr⟩ | ⟨m, e2, ha, hlog, herr⟩
        · right; left; exact ⟨contents, hlog⟩
        · right; right; exact ⟨m, hlog⟩
        · left; exact hlog

/--
**C7** (amended): every line the program ever appends to the log is either a
SUCCESS entry `<sanitized timestamp>: SUCCESS: Backup created at <path>,
HASH: <h>` with `h` exactly 64 lowercase hex characters, or a FAILED entry
`<toISOString timestamp>: FAILED: <message>` — where the SUCCESS entry's
leading timestamp is the *filename-sanitized* one (`:` and `.` replaced by
`-`), not the ISO8601 form the spec states.
-/
theorem appended_lines_match_sanitized_grammar (env : Env) (s d : String) (fs : FS) :
    ∀ entry ∈ (runBackup env s d fs).fs.log,
      entry ∈ fs.log ∨
      (∃ p h, entry = successLogEntry env p h ∧ h.length = 64 ∧
        ∀ c ∈ h.data, isHexDigit c = true) ∨
      (∃ m, entry = failedLogEntry env m) := by
  intro entry hmem
  rcases runBackup_log_cases env s d fs with h | ⟨contents, h⟩ | ⟨m, h⟩
  · left; rwa [h] at hmem
  · rw [h] at hmem
    rcases List.mem_append.mp hmem with h1 | h1
    · left; exact h1
    · right; left
      exact ⟨archivePath env d, calculateDirectoryChecksum (String.join contents),
        by simpa using h1, calculateDirectoryChecksum_length _,
        calculateDirectoryChecksum_hex _⟩
  · rw [h] at hmem
    rcases List.mem_append.mp hmem with h1 | h1
    · left; exact h1
    · right; right; exact ⟨m, by simpa using h1⟩

/-- Witness for the amended C7: the concrete line appended by a successful
run falls under the SUCCESS shape of the amended grammar. -/
theorem appended_lines_match_sanitized_grammar_witness :
    "2026-01-02T03-04-05-678Z: SUCCESS: Backup created at dest/backup-2026-01-02T03-04-05-678Z.tar.gz, HASH: c3ab8ff13720e8ad9047dd39466b3c8974e592c2fa383d4a3960714caef0c4f2\n" ∈
      emptyFS.log ∨
    (∃ p h,
      ("2026-01-02T03-04-05-678Z: SUCCESS: Backup created at dest/backup-2026-01-02T03-04-05-678Z.tar.gz, HASH: c3ab8ff13720e8ad9047dd39466b3c8974e592c2fa383d4a3960714caef0c4f2\n" : String) =
        successLogEntry fooBarEnv p h ∧ h.length = 64 ∧
      ∀ c ∈ h.data, isHexDigit c = true) ∨
    (∃ m,
      ("2026-01-02T03-04-05-678Z: SUCCESS: Backup created at dest/backup-2026-01-02T03-04-05-678Z.tar.gz, HASH: c3ab8ff13720e8ad9047dd39466b3c8974e592c2fa383d4a3960714caef0c4f2\n" : String) =
        failedLogEntry fooBarEnv m) :=
  appended_lines_match_sanitized_grammar fooBarEnv "src" "dest" emptyFS _ (by decide)

/-! ## The spec's log-line grammar (for the C7 comparison)

The spec (§6) states the line grammar
`<ISO8601>: SUCCESS: Backup created at <path>, HASH: <hex64>\n` and
`<ISO8601>: FAILED: <message>\n`.  The timestamps this program produces come
from `Date.prototype.toISOString`, whose output is the 24-character extended
format `YYYY-MM-DDTHH:MM:SS.mmmZ`; `specISO8601` checks exactly that shape,
and `specLogLineOk` checks a whole line against the spec's grammar.  These
two definitions follow the spec's words, for comparison against the lines
the embedded code actually appends.
-/

/-- The `toISOString` ISO8601 shape `YYYY-MM-DDTHH:MM:SS.mmmZ`. -/
def specISO8601 (s : String) : Bool :=
  (s.data.length == 24) && (List.range 24).all (fun i =>
    let c := s.data.getD i ' '
    if i = 4 ∨ i = 7 then c == '-'
    else if i = 10 then c == 'T'
    else if i = 13 ∨ i = 16 then c == ':'
    else if i = 19 then c == '.'
    else if i = 23 then c == 'Z'
    else c.isDigit)

/-- The spec's log-line grammar: an ISO8601 timestamp, then either
`: SUCCESS: Backup created at <path>, HASH: <hex64>` or
`: FAILED: <message>`, ending in a newline. -/
def specLogLineOk (line : String) : Bool :=
  specISO8601 (String.mk (line.data.take 24)) &&
  (let rest : String := String.mk (line.data.drop 24)
   (startsWithL rest.data ": SUCCESS: Backup created at ".data &&
     (match (jsSplit rest ", HASH: ").getLast? with
      | some tail => (tail.data.length == 65) && (tail.data.take 64).all isHexDigit &&
          (tail.data.getD 64 ' ' == '\n')
      | none => false)) ||
   (startsWithL rest.data ": FAILED: ".data && (line.data.getLast? == some '\n')))

/--
**C7** counterexample: with a clock that returns a perfectly valid ISO8601
timestamp, the single line a successful run appends does *not* match the
spec's grammar — its leading timestamp is the sanitized
`2026-01-02T03-04-05-678Z` — while the same grammar does accept the FAILED
lines and would accept an ISO-timestamped SUCCESS line.  So the claim
"every appended line begins with an ISO8601 timestamp" is false for
SUCCESS lines.
-/
theorem success_line_violates_spec_grammar :
    specISO8601 fooBarEnv.now = true ∧
    (runBackup fooBarEnv "src" "dest" emptyFS).fs.log.length = 1 ∧
    (∀ entry ∈ (runBackup fooBarEnv "src" "dest" emptyFS).fs.log,
      specLogLineOk entry = false) ∧
    specLogLineOk "2026-01-02T03:04:05.678Z: FAILED: disk full\n" = true ∧
    specLogLineOk ("2026-01-02T03:04:05.678Z: SUCCESS: Backup created at dest/b.tar.gz, HASH: c3ab8ff13720e8ad9047dd39466b3c8974e592c2fa383d4a3960714caef0c4f2\n") = true := by
  decide

/-! ## C6: which failures get a FAILED log entry -/

/-- An environment where creating the destination directory fails. -/
def mkdirFailEnv : Env :=
  { baseEnv with
    dirEntries := .ok ["a.txt"],
    mkdirResult := .error "EACCES: permission denied" }

/--
**C6** counterexample: a destination-directory creation failure (`fs.mkdir`
rejecting inside `runBackup`, before `createArchive` is reached) appends
*no* FAILED entry — the log is untouched and the error is only reported on
stderr.  The claim that "every failure during the archive phase — including
destination-directory creation failure — appends a FAILED LogEntry" is
therefore false.
-/
theorem mkdir_failure_appends_no_log_entry :
    (runBackup mkdirFailEnv "src" "dest" emptyFS).fs = emptyFS ∧
    (runBackup mkdirFailEnv "src" "dest" emptyFS).stderrLines =
      ["Error occurred during backup: EACCES: permission denied"] := by
  decide

/--
**C6** (amended): failures inside `createArchive` (Archiver failure, content
read failure, success-append failure) do append exactly one FAILED entry
before the error is reported, provided the log append succeeds; but a
destination-directory creation failure appends nothing — `runBackup` leaves
the file system untouched and only writes the message to stderr.
-/
theorem archive_failures_logged_but_mkdir_failure_not (env : Env) (s d : String)
    (fs : FS) (happ : ∀ x, env.appendErr x = none) :
    (∀ err, (createArchive env s d fs).2 = .error err →
      ∃ m, (createArchive env s d fs).1.log = fs.log ++ [failedLogEntry env m] ∧
        err = "Failed to create backup, error = " ++ m) ∧
    (∀ e files, env.dirEntries = .ok files → env.mkdirResult = .error e →
      getLastBackupHash env fs ≠ some (calculateDirectoryChecksum (String.join files)) →
      (runBackup env s d fs).fs = fs ∧
      (runBackup env s d fs).stderrLines = ["Error occurred during backup: " ++ e]) := by
  constructor
  · intro err herr
    rcases createArchive_log_cases env s d fs with
      ⟨hok, _⟩ | ⟨m, hlog, herr2⟩ | ⟨m, e2, ha, _, _⟩
    · rw [hok] at herr
      exact absurd herr (by simp)
    · rw [herr2] at herr
      injection herr with hh
      exact ⟨m, hlog, hh.symm⟩
    · rw [happ _] at ha
      exact absurd ha (by simp)
  · intro e files hdir hmk hne
    constructor <;> simp [runBackup, runBackupTry, hdir, hmk, hne]

/-- Witness for the amended C6: the Archiver-failure half at the `disk full`
environment, and the mkdir-failure half at `mkdirFailEnv`. -/
theorem archive_failures_logged_but_mkdir_failure_not_witness :
    (∃ m, (createArchive tarFailEnv "src" "dest" emptyFS).1.log =
        emptyFS.log ++ [failedLogEntry tarFailEnv m] ∧
      "Failed to create backup, error = disk full" =
        "Failed to create backup, error = " ++ m) ∧
    ((runBackup mkdirFailEnv "src" "dest" emptyFS).fs = emptyFS ∧
     (runBackup mkdirFailEnv "src" "dest" emptyFS).stderrLines =
       ["Error occurred during backup: " ++ "EACCES: permission denied"]) :=
  ⟨(archive_failures_logged_but_mkdir_failure_not tarFailEnv "src" "dest" emptyFS
      (fun x => rfl)).1 "Failed to create backup, error = disk full" rfl,
   (archive_failures_logged_but_mkdir_failure_not mkdirFailEnv "src" "dest" emptyFS
      (fun x => rfl)).2 "EACCES: permission denied" ["a.txt"] rfl rfl (by decide)⟩

/-! ## C1: the idempotent-skip property fails on this code -/

/-- The same directory on the second run, with only the clock advanced. -/
def fooBarEnv2 : Env := { fooBarEnv with now := "2026-01-02T04:00:00.000Z" }

/--
**C1** (code bug): after a successful backup of an unchanged directory the
second run does **not** skip.  The skip comparison checks the hash of the
joined *entry names* (`a.txtb.txt`) against the logged hash of the joined
*file contents* (`foobar`), which differ; hence two consecutive runs over
the identical directory produce two archives and two SUCCESS log entries,
not one of each as the (intended and spec-required) idempotence property
demands.
-/
theorem second_run_creates_second_archive :
    calculateDirectoryChecksum "a.txtb.txt" ≠ calculateDirectoryChecksum "foobar" ∧
    (runBackup fooBarEnv "src" "dest" emptyFS).fs.archives.length = 1 ∧
    (runBackup fooBarEnv "src" "dest" emptyFS).fs.log.length = 1 ∧
    (runBackup fooBarEnv2 "src" "dest"
      (runBackup fooBarEnv "src" "dest" emptyFS).fs).fs.archives.length = 2 ∧
    (runBackup fooBarEnv2 "src" "dest"
      (runBackup fooBarEnv "src" "dest" emptyFS).fs).fs.log.length = 2 ∧
    (∀ entry ∈ (runBackup fooBarEnv2 "src" "dest"
        (runBackup fooBarEnv "src" "dest" emptyFS).fs).fs.log,
      jsIncludes entry "SUCCESS" = true) := by
  decide

/-! ## C10: the pre-check fingerprint is not injective in the name list -/

/-- A log whose recorded hash equals the digest of `"abc"`. -/
def collisionFS : FS :=
  ⟨true, ["t: SUCCESS: Backup created at x, HASH: ba7816bf8f01cfea414140de5dae2223b00361a396177a9cb410ff61f20015ad\n"],
   []⟩

/--
**C10.** The pre-check fingerprint hashes the entry names joined with no
separator, so the distinct listings `["ab","c"]` and `["a","bc"]` feed the
*same* string `"abc"` to the digest — equal fingerprints with no hash
collision — and the skip decision cannot distinguish them: against a log
recording the digest of `"abc"`, both directories SKIP identically.
-/
theorem precheck_fingerprint_not_injective :
    (["ab", "c"] : List String) ≠ ["a", "bc"] ∧
    String.join ["ab", "c"] = String.join ["a", "bc"] ∧
    calculateDirectoryChecksum (String.join ["ab", "c"]) =
      calculateDirectoryChecksum (String.join ["a", "bc"]) ∧
    (runBackup { baseEnv with dirEntries := .ok ["ab", "c"] } "src" "dest"
      collisionFS).fs = collisionFS ∧
    (runBackup { baseEnv with dirEntries := .ok ["a", "bc"] } "src" "dest"
      collisionFS).fs = collisionFS := by
  decide

end Backup
